import Mathlib

/-!
Verification development for the SwiftStock repository.

The repository consists of a synthetic inventory generator
(src/data_ingestion/inventory_data_generator.py) and two near-duplicate
dashboards (src/streamlit_app.py, the Command Center variant, and
src/streamlit_mvp/streamlit_app.py, the MVP variant).  This file gives a
shallow embedding of the data model and of the operations the claims are
about, translated from the source:

  * the Python string operations used by the local item-name resolver
    run_chat_action of the MVP variant;
  * the nearest-neighbor SQL query find_nearest_neighbors of both variants,
    embedded as list operations over in-memory facility and inventory
    tables (the external warehouse is modelled as a value that either
    serves the tables or raises);
  * the generator generate_inventory, with the library random draws and
    the geopy geodesic distance supplied as explicit oracles.
-/

namespace SwiftStock

/-! ### Text model: the Python string operations used by run_chat_action -/

/-- Python str.lower on a character list (ASCII semantics of Char.toLower). -/
def lowerL (l : List Char) : List Char := l.map Char.toLower

/-- Python str.lower on a string. -/
def lowerStr (s : String) : String := String.mk (lowerL s.data)

/-- Does the second list start with the first one? -/
def startsWithL : List Char → List Char → Bool
  | [], _ => true
  | _ :: _, [] => false
  | a :: as, b :: bs => a == b && startsWithL as bs

/-- Python substring containment, needle in hay.  Matches Python in that the
empty needle is contained in every string. -/
def containsSubL (n : List Char) : List Char → Bool
  | [] => n.isEmpty
  | c :: t => startsWithL n (c :: t) || containsSubL n t

/-- Python item.split(" ")[0]: the characters before the first space. -/
def firstWordL (l : List Char) : List Char := l.takeWhile (fun c => c != ' ')

/-! ### Item-name resolution: run_chat_action of src/streamlit_mvp/streamlit_app.py -/

/-- Ordering used to model Python sorted(valid_items, key=len, reverse=True):
longer strings first.  Insertion sort with this non-strict relation is stable,
as Python's sorted is. -/
def lenGE (a b : String) : Prop := b.length ≤ a.length

instance : DecidableRel lenGE :=
  fun a b => inferInstanceAs (Decidable (b.length ≤ a.length))

instance : IsTotal String lenGE := ⟨fun a b => Nat.le_total b.length a.length⟩

instance : IsTrans String lenGE := ⟨fun _ _ _ hab hbc => le_trans hbc hab⟩

/-- One membership test of the run_chat_action loop against the lowered query:
the lowered full item name occurs in the query, or the lowered first word of
the item name does. -/
def itemHit (qlow : List Char) (item : String) : Bool :=
  containsSubL (lowerL item.data) qlow || containsSubL (lowerL (firstWordL item.data)) qlow

/-- Embedding of run_chat_action (src/streamlit_mvp/streamlit_app.py, lines
86 to 99): lowercase the query, sort the known items by length descending,
return the first item whose full name or first word occurs in the lowered
query, and none when no item matches. -/
def run_chat_action (user_query : String) (valid_items : List String) : Option String :=
  let q := lowerL user_query.data
  (List.insertionSort lenGE valid_items).find? (fun item => itemHit q item)

/-! ### Data model of the matcher -/

/-- Row of the FACILITIES table. -/
structure Facility where
  fid : String
  name : String
  lat : ℚ
  lon : ℚ
deriving DecidableEq

/-- The fields of an inventory row the neighbor query reads (the joined
table is INVENTORY_DAILY in one variant, INVENTORY_DAILY_PREDICTED in the
other; both enter the embedding as an explicit list parameter). -/
structure InvRecord where
  facilityId : String
  itemName : String
  closingStock : ℤ
deriving DecidableEq

/-- Row produced by the neighbor query.  The SQL projects saviorName,
saviorLat, saviorLon, availableStock and distanceKm; the candidate facility
id is retained in the embedding so that exclusion of the source facility is
statable. -/
structure MatchRow where
  saviorId : String
  saviorName : String
  saviorLat : ℚ
  saviorLon : ℚ
  availableStock : ℤ
  distanceKm : ℚ
deriving DecidableEq

/-- SQL ROUND(x, 1): round to one decimal, half up, which agrees with the
warehouse's half-away-from-zero rounding on nonnegative inputs. -/
def round1 (x : ℚ) : ℚ := ((⌊x * 10 + 1/2⌋ : ℤ) : ℚ) / 10

/-- Distance oracle standing for the warehouse's ST_DISTANCE in meters,
applied to source longitude, source latitude, neighbor longitude, neighbor
latitude. -/
abbrev DistFn := ℚ → ℚ → ℚ → ℚ → ℚ

/-- The rows produced by the joins and WHERE clause shared by both query
variants: source facility rows matching the victim id, neighbor facility
rows with a different facility id, inventory rows of the neighbor for the
requested item with closing stock above 100. -/
def candidateRows (dist : DistFn) (facilities : List Facility) (inventory : List InvRecord)
    (victimId itemName : String) : List MatchRow :=
  facilities.flatMap (fun source =>
    if source.fid = victimId then
      facilities.flatMap (fun neighbor =>
        if neighbor.fid ≠ source.fid then
          inventory.filterMap (fun inv =>
            if inv.facilityId = neighbor.fid ∧ inv.itemName = itemName ∧ 100 < inv.closingStock then
              some { saviorId := neighbor.fid, saviorName := neighbor.name,
                     saviorLat := neighbor.lat, saviorLon := neighbor.lon,
                     availableStock := inv.closingStock,
                     distanceKm := round1 (dist source.lon source.lat neighbor.lon neighbor.lat / 1000) }
            else none)
        else [])
    else [])

/-- ORDER BY DISTANCE_KM ASC, modelled by a stable sort on the rounded
distance column. -/
def distLE (a b : MatchRow) : Prop := a.distanceKm ≤ b.distanceKm

instance : DecidableRel distLE :=
  fun a b => inferInstanceAs (Decidable (a.distanceKm ≤ b.distanceKm))

instance : IsTotal MatchRow distLE := ⟨fun a b => le_total a.distanceKm b.distanceKm⟩

instance : IsTrans MatchRow distLE := ⟨fun _ _ _ h1 h2 => le_trans h1 h2⟩

/-- Result rows of the Command Center variant's query (src/streamlit_app.py,
lines 40 to 58): shared joins and filters, then HAVING DISTANCE_KM < 10,
ORDER BY DISTANCE_KM ASC, LIMIT 3. -/
def neighborsMain (dist : DistFn) (facilities : List Facility) (inventory : List InvRecord)
    (victimId itemName : String) : List MatchRow :=
  (List.insertionSort distLE
    ((candidateRows dist facilities inventory victimId itemName).filter
      (fun r => decide (r.distanceKm < 10)))).take 3

/-- Result rows of the MVP variant's query (src/streamlit_mvp/streamlit_app.py,
lines 55 to 77): identical to the Command Center variant except that there is
no distance cutoff. -/
def neighborsMvp (dist : DistFn) (facilities : List Facility) (inventory : List InvRecord)
    (victimId itemName : String) : List MatchRow :=
  (List.insertionSort distLE
    (candidateRows dist facilities inventory victimId itemName)).take 3

/-- The external store as seen by one call of find_nearest_neighbors: it
either serves the facility and inventory tables or raises an exception. -/
abbrev Store := Except String (List Facility × List InvRecord)

/-- Embedding of find_nearest_neighbors of src/streamlit_app.py: the function
body has no exception handler, so an exception raised by the external store
propagates out of the function. -/
def find_nearest_neighbors_main (dist : DistFn) (store : Store)
    (victimId itemName : String) : Except String (List MatchRow) :=
  match store with
  | Except.error e => Except.error e
  | Except.ok (facilities, inventory) =>
      Except.ok (neighborsMain dist facilities inventory victimId itemName)

/-- Embedding of find_nearest_neighbors of src/streamlit_mvp/streamlit_app.py:
the session call is wrapped in try/except, and on an exception the function
shows a user-facing error message and returns an empty table.  The second
component is the error message displayed via st.error, none when no exception
occurred. -/
def find_nearest_neighbors_mvp (dist : DistFn) (store : Store)
    (victimId itemName : String) : List MatchRow × Option String :=
  match store with
  | Except.error e => ([], some ("SQL Error: " ++ e))
  | Except.ok (facilities, inventory) =>
      (neighborsMvp dist facilities inventory victimId itemName, none)

/-- What the emergency console does with the query result: a found-solution
rendering when rows came back, and the no-supply message otherwise (the
st.error beside the empty branch in both variants is a rendered message, not
a raised exception). -/
inductive ConsoleOutcome where
  | solutionFound (rows : List MatchRow)
  | noSupply
deriving DecidableEq

/-- Caller branch on the query result, both variants (src/streamlit_app.py
lines 195 to 227, src/streamlit_mvp/streamlit_app.py lines 178 to 200). -/
def consoleRespond (rows : List MatchRow) : ConsoleOutcome :=
  if rows.isEmpty then ConsoleOutcome.noSupply else ConsoleOutcome.solutionFound rows

/-! ### Generator: src/data_ingestion/inventory_data_generator.py -/

/-- Entry of the MASTER_ITEMS list. -/
structure Item where
  name : String
  cat : String
  crit : String
deriving DecidableEq, Inhabited

/-- The 25-item master list of the generator. -/
def MASTER_ITEMS : List Item := [
  ⟨"Oxytocin Injection", "Maternal", "High"⟩,
  ⟨"Magnesium Sulfate", "Maternal", "High"⟩,
  ⟨"Amoxicillin 500mg", "Antibiotic", "Medium"⟩,
  ⟨"Azithromycin", "Antibiotic", "Medium"⟩,
  ⟨"Insulin Glargine", "Chronic", "High"⟩,
  ⟨"Metformin 500mg", "Chronic", "Medium"⟩,
  ⟨"Amlodipine 5mg", "Chronic", "Medium"⟩,
  ⟨"Ringer Lactate", "Fluids", "High"⟩,
  ⟨"Normal Saline 0.9%", "Fluids", "Medium"⟩,
  ⟨"Epinephrine", "Emergency", "High"⟩,
  ⟨"BCG Vaccine", "Vaccine", "High"⟩,
  ⟨"Polio Vaccine", "Vaccine", "High"⟩,
  ⟨"Surgical Masks", "Consumable", "Low"⟩,
  ⟨"Sterile Gloves", "Consumable", "Low"⟩,
  ⟨"Disposable Syringes 3ml", "Consumable", "Low"⟩,
  ⟨"IV Cannula", "Consumable", "Medium"⟩,
  ⟨"HIV Rapid Test Kit", "Diagnostic", "High"⟩,
  ⟨"Malaria RDT", "Diagnostic", "High"⟩,
  ⟨"Blood Glucose Strips", "Diagnostic", "Medium"⟩,
  ⟨"Paracetamol 500mg", "General", "Low"⟩,
  ⟨"Ibuprofen 400mg", "General", "Low"⟩,
  ⟨"Oral Rehydration Salts", "General", "Medium"⟩,
  ⟨"TB-Kit Adult", "Infectious", "High"⟩,
  ⟨"Artemether (Malaria)", "Infectious", "High"⟩,
  ⟨"Folic Acid", "Maternal", "Low"⟩]

/-- The flagged demo item, MASTER_ITEMS index 0. -/
def oxyName : String := "Oxytocin Injection"

/-- One generated inventory row.  RECORD_ID (a fresh uuid) and DATE (the
wall clock) are external effects and are not modelled. -/
structure GenRecord where
  facilityId : String
  itemName : String
  category : String
  opening : ℤ
  received : ℤ
  issued : ℤ
  closing : ℤ
  leadTime : ℤ
  crit : String
deriving DecidableEq

/-- Oracle standing for the library random draws of the generator: the
random.sample item selection per facility and the random.randint draws per
facility and item.  Theorems that depend on the randint ranges state them as
hypotheses on the oracle. -/
structure GenOracle where
  sample : String → List Item
  opening : String → String → ℤ
  received : String → String → ℤ
  issued : String → String → ℤ
  leadTime : String → String → ℤ

/-- Distance oracle standing for geopy's geodesic(...).km, applied to victim
latitude, victim longitude, row latitude, row longitude. -/
abbrev GeoFn := ℚ → ℚ → ℚ → ℚ → ℚ

/-- One iteration of the savior-search loop: skip the victim's own rows,
otherwise keep the strictly closer of the accumulator and the current row. -/
def nearestStep (geo : GeoFn) (vid : String) (vlat vlon : ℚ)
    (acc : ℚ × Option String) (row : Facility) : ℚ × Option String :=
  if row.fid = vid then acc
  else
    let d := geo vlat vlon row.lat row.lon
    if d < acc.1 then (d, some row.fid) else acc

/-- The savior search of generate_inventory (lines 57 to 63): fold over all
facility rows starting from min_dist = 9999 and nearest = None. -/
def nearestOther (geo : GeoFn) (facilities : List Facility) (vid : String)
    (vlat vlon : ℚ) : Option String :=
  (facilities.foldl (nearestStep geo vid vlat vlon) (9999, none)).2

/-- victim_ids: the first three facility ids of the input file. -/
def victimIds (facilities : List Facility) : List String :=
  (facilities.map Facility.fid).take 3

/-- savior_ids: for each victim, look up its row, run the savior search, and
append the result when it is truthy in Python's sense (not None and not the
empty string). -/
def saviorIds (geo : GeoFn) (facilities : List Facility) : List String :=
  (victimIds facilities).filterMap (fun vid =>
    match facilities.find? (fun r => r.fid == vid) with
    | none => none
    | some vrow =>
        match nearestOther geo facilities vid vrow.lat vrow.lon with
        | none => none
        | some s => if s = "" then none else some s)

/-- The opening, received and issued triple for one facility and item: the
random draws, overridden by the crisis scenario when the item is Oxytocin
Injection and the facility is a victim or a savior (the victim branch takes
precedence, mirroring the if/elif of the source). -/
def scenario (oracle : GenOracle) (victims saviors : List String)
    (fid : String) (item : Item) : ℤ × ℤ × ℤ :=
  if item.name = oxyName then
    if fid ∈ victims then (10, 0, 10)
    else if fid ∈ saviors then (600, 0, 5)
    else (oracle.opening fid item.name, oracle.received fid item.name, oracle.issued fid item.name)
  else (oracle.opening fid item.name, oracle.received fid item.name, oracle.issued fid item.name)

/-- One generated row for a facility and item: the scenario stock figures,
closed with max(0, opening + received - issued). -/
def mkRecord (oracle : GenOracle) (victims saviors : List String)
    (fid : String) (item : Item) : GenRecord :=
  { facilityId := fid, itemName := item.name, category := item.cat,
    opening := (scenario oracle victims saviors fid item).1,
    received := (scenario oracle victims saviors fid item).2.1,
    issued := (scenario oracle victims saviors fid item).2.2,
    closing := max 0 ((scenario oracle victims saviors fid item).1 +
      (scenario oracle victims saviors fid item).2.1 -
      (scenario oracle victims saviors fid item).2.2),
    leadTime := oracle.leadTime fid item.name, crit := item.crit }

/-- The item selection for one facility: the sampled items, with Oxytocin
Injection appended when the facility is a victim or savior and the sample
missed it (the appended element is MASTER_ITEMS index 0). -/
def facilityItems (oracle : GenOracle) (victims saviors : List String)
    (fid : String) : List Item :=
  let sel := oracle.sample fid
  if (fid ∈ victims ∨ fid ∈ saviors) ∧ oxyName ∉ sel.map Item.name
  then sel ++ [MASTER_ITEMS.headI] else sel

/-- Embedding of generate_inventory: compute victim and savior ids, then emit
one row per facility and selected item. -/
def generate_inventory (geo : GeoFn) (oracle : GenOracle)
    (facilities : List Facility) : List GenRecord :=
  let victims := victimIds facilities
  let saviors := saviorIds geo facilities
  facilities.flatMap (fun fac =>
    (facilityItems oracle victims saviors fac.fid).map
      (mkRecord oracle victims saviors fac.fid))

/-! ### Concrete test fixtures used by witnesses and counterexamples -/

/-- Executable absolute value on the rationals, used by the fixture metrics. -/
def qabs (x : ℚ) : ℚ := if x < 0 then -x else x

/-- Taxicab distance in meters, a concrete stand-in for ST_DISTANCE. -/
def testDist : DistFn := fun lon1 lat1 lon2 lat2 => (qabs (lon2 - lon1) + qabs (lat2 - lat1)) * 1000

/-- Taxicab distance in kilometers, a concrete stand-in for the geodesic. -/
def testGeo : GeoFn := fun la lo lb lob => qabs (lb - la) + qabs (lob - lo)

/-- Five facilities on a line, one kilometer apart under testDist. -/
def testFacs : List Facility :=
  [⟨"F1", "Alpha", 0, 0⟩, ⟨"F2", "Beta", 0, 1⟩, ⟨"F3", "Gamma", 0, 2⟩,
   ⟨"F4", "Delta", 0, 3⟩, ⟨"F5", "Echo", 0, 4⟩]

/-- Inventory giving the four non-source facilities qualifying Oxytocin stock. -/
def testInv : List InvRecord :=
  [⟨"F2", oxyName, 150⟩, ⟨"F3", oxyName, 200⟩, ⟨"F4", oxyName, 300⟩, ⟨"F5", oxyName, 120⟩]

/-- The closest qualifying row of the fixture: facility F2, one kilometer away. -/
def testRowF2 : MatchRow := ⟨"F2", "Beta", 0, 1, 150, 1⟩

/-- Second and third rows of the fixture result. -/
def testRowF3 : MatchRow := ⟨"F3", "Gamma", 0, 2, 200, 2⟩

def testRowF4 : MatchRow := ⟨"F4", "Delta", 0, 3, 300, 3⟩

def testRowF5 : MatchRow := ⟨"F5", "Echo", 0, 4, 120, 4⟩

/-- Evaluation of the shared candidate rows on the fixture. -/
lemma candidateRows_testEval :
    candidateRows testDist testFacs testInv ("F1") oxyName =
      [testRowF2, testRowF3, testRowF4, testRowF5] := by
  norm_num +decide [candidateRows, testDist, testFacs, testInv, qabs, round1, oxyName,
    testRowF2, testRowF3, testRowF4, testRowF5]

/-- Evaluation of the Command Center result on the fixture. -/
lemma neighborsMain_testEval :
    neighborsMain testDist testFacs testInv ("F1") oxyName =
      [testRowF2, testRowF3, testRowF4] := by
  rw [neighborsMain, candidateRows_testEval]
  norm_num +decide [List.insertionSort, List.orderedInsert, distLE,
    testRowF2, testRowF3, testRowF4, testRowF5]

/-- Evaluation of the MVP result on the fixture. -/
lemma neighborsMvp_testEval :
    neighborsMvp testDist testFacs testInv ("F1") oxyName =
      [testRowF2, testRowF3, testRowF4] := by
  rw [neighborsMvp, candidateRows_testEval]
  norm_num +decide [List.insertionSort, List.orderedInsert, distLE,
    testRowF2, testRowF3, testRowF4, testRowF5]

/-- Evaluation of the savior search on the fixture. -/
lemma nearestOther_testEval :
    nearestOther testGeo testFacs ("F1") 0 0 = some ("F2") := by
  norm_num +decide [nearestOther, nearestStep, testGeo, testFacs, qabs]

/-! ### Inversion and sortedness lemmas for the matcher -/

/-- Inversion of membership in candidateRows: every produced row comes from a
source row matching the victim id, a distinct neighbor row, and a qualifying
inventory row. -/
lemma candidateRows_inv {dist : DistFn} {facilities : List Facility}
    {inventory : List InvRecord} {victimId itemName : String} {r : MatchRow}
    (hr : r ∈ candidateRows dist facilities inventory victimId itemName) :
    ∃ source, source ∈ facilities ∧ source.fid = victimId ∧
    ∃ neighbor, neighbor ∈ facilities ∧ neighbor.fid ≠ source.fid ∧
    ∃ invr, invr ∈ inventory ∧ invr.facilityId = neighbor.fid ∧
      invr.itemName = itemName ∧ 100 < invr.closingStock ∧
      r = { saviorId := neighbor.fid, saviorName := neighbor.name,
            saviorLat := neighbor.lat, saviorLon := neighbor.lon,
            availableStock := invr.closingStock,
            distanceKm := round1 (dist source.lon source.lat neighbor.lon neighbor.lat / 1000) } := by
  unfold candidateRows at hr
  simp only [List.mem_flatMap] at hr
  obtain ⟨source, hs, hr⟩ := hr
  by_cases h1 : source.fid = victimId
  · rw [if_pos h1] at hr
    simp only [List.mem_flatMap] at hr
    obtain ⟨neighbor, hn, hr⟩ := hr
    by_cases h2 : neighbor.fid ≠ source.fid
    · rw [if_pos h2] at hr
      simp only [List.mem_filterMap] at hr
      obtain ⟨invr, hi, heq⟩ := hr
      split at heq
      · rename_i hc
        exact ⟨source, hs, h1, neighbor, hn, h2, invr, hi, hc.1, hc.2.1, hc.2.2,
          (Option.some.inj heq).symm⟩
      · exact absurd heq (by simp)
    · rw [if_neg h2] at hr
      simp at hr
  · rw [if_neg h1] at hr
    simp at hr

/-- Rows of the Command Center result are candidate rows. -/
lemma neighborsMain_subset_candidates {dist : DistFn} {facilities : List Facility}
    {inventory : List InvRecord} {victimId itemName : String} {r : MatchRow}
    (hr : r ∈ neighborsMain dist facilities inventory victimId itemName) :
    r ∈ candidateRows dist facilities inventory victimId itemName := by
  unfold neighborsMain at hr
  have h1 := List.mem_of_mem_take hr
  have h2 := (List.perm_insertionSort distLE _).mem_iff.mp h1
  exact (List.mem_filter.mp h2).1

/-- Rows of the MVP result are candidate rows. -/
lemma neighborsMvp_subset_candidates {dist : DistFn} {facilities : List Facility}
    {inventory : List InvRecord} {victimId itemName : String} {r : MatchRow}
    (hr : r ∈ neighborsMvp dist facilities inventory victimId itemName) :
    r ∈ candidateRows dist facilities inventory victimId itemName := by
  unfold neighborsMvp at hr
  have h1 := List.mem_of_mem_take hr
  exact (List.perm_insertionSort distLE _).mem_iff.mp h1

/-- The Command Center result is sorted by ascending distance. -/
lemma neighborsMain_pairwise (dist : DistFn) (facilities : List Facility)
    (inventory : List InvRecord) (victimId itemName : String) :
    List.Pairwise distLE (neighborsMain dist facilities inventory victimId itemName) :=
  List.Pairwise.sublist (List.take_sublist 3 _) (List.sorted_insertionSort distLE _)

/-- The MVP result is sorted by ascending distance. -/
lemma neighborsMvp_pairwise (dist : DistFn) (facilities : List Facility)
    (inventory : List InvRecord) (victimId itemName : String) :
    List.Pairwise distLE (neighborsMvp dist facilities inventory victimId itemName) :=
  List.Pairwise.sublist (List.take_sublist 3 _) (List.sorted_insertionSort distLE _)

/-- Rounding to one decimal preserves nonnegativity. -/
lemma round1_nonneg {x : ℚ} (hx : 0 ≤ x) : 0 ≤ round1 x := by
  unfold round1
  have h1 : (0 : ℚ) ≤ x * 10 + 1 / 2 := by linarith
  have h2 : (0 : ℤ) ≤ ⌊x * 10 + 1 / 2⌋ := Int.floor_nonneg.mpr h1
  have h3 : (0 : ℚ) ≤ ((⌊x * 10 + 1 / 2⌋ : ℤ) : ℚ) := by exact_mod_cast h2
  linarith

/-- Fold invariant of the savior search: a produced id either was already in
the accumulator or names a scanned row whose id differs from the victim id. -/
lemma foldl_nearestStep {geo : GeoFn} {vid : String} {vlat vlon : ℚ} :
    ∀ (l : List Facility) (acc : ℚ × Option String) (s : String),
      (l.foldl (nearestStep geo vid vlat vlon) acc).2 = some s →
      acc.2 = some s ∨ ∃ row, row ∈ l ∧ row.fid = s ∧ row.fid ≠ vid := by
  intro l
  induction l with
  | nil => intro acc s h; exact Or.inl h
  | cons c t ih =>
    intro acc s h
    rw [List.foldl_cons] at h
    rcases ih (nearestStep geo vid vlat vlon acc c) s h with h1 | h1
    · unfold nearestStep at h1
      by_cases hc : c.fid = vid
      · rw [if_pos hc] at h1
        exact Or.inl h1
      · rw [if_neg hc] at h1
        by_cases hd : geo vlat vlon c.lat c.lon < acc.1
        · rw [if_pos hd] at h1
          exact Or.inr ⟨c, List.mem_cons_self c t, (Option.some.inj h1).symm ▸ rfl,
            (Option.some.inj h1) ▸ hc⟩
        · rw [if_neg hd] at h1
          exact Or.inl h1
    · obtain ⟨row, hrow, h2, h3⟩ := h1
      exact Or.inr ⟨row, List.mem_cons_of_mem c hrow, h2, h3⟩

/-- The savior search never selects the victim id, and the selected id names
a row of the facility table. -/
lemma nearestOther_spec {geo : GeoFn} {facilities : List Facility} {vid : String}
    {vlat vlon : ℚ} {s : String}
    (h : nearestOther geo facilities vid vlat vlon = some s) :
    s ≠ vid ∧ ∃ row, row ∈ facilities ∧ row.fid = s := by
  unfold nearestOther at h
  rcases foldl_nearestStep facilities (9999, none) s h with h1 | h1
  · exact absurd h1 (by simp)
  · obtain ⟨row, hrow, h2, h3⟩ := h1
    exact ⟨h2 ▸ h3, row, hrow, h2⟩

/-! ### Claim C1 -/

/-- C1: every row returned by either dashboard variant of
find_nearest_neighbors names a candidate facility different from the source
facility, both returned sequences have non-decreasing DISTANCE_KM, and the
generator's savior search never selects the victim facility itself. -/
theorem nn_excludes_source_and_sorted (dist : DistFn) (facilities : List Facility)
    (inventory : List InvRecord) (victimId itemName : String) :
    (∀ r ∈ neighborsMain dist facilities inventory victimId itemName, r.saviorId ≠ victimId) ∧
    List.Pairwise distLE (neighborsMain dist facilities inventory victimId itemName) ∧
    (∀ r ∈ neighborsMvp dist facilities inventory victimId itemName, r.saviorId ≠ victimId) ∧
    List.Pairwise distLE (neighborsMvp dist facilities inventory victimId itemName) ∧
    (∀ (geo : GeoFn) (vlat vlon : ℚ) (s : String),
      nearestOther geo facilities victimId vlat vlon = some s → s ≠ victimId) := by
  refine ⟨?_, neighborsMain_pairwise dist facilities inventory victimId itemName, ?_,
    neighborsMvp_pairwise dist facilities inventory victimId itemName, ?_⟩
  · intro r hr
    obtain ⟨source, _, h1, neighbor, _, h2, _, _, _, _, _, heq⟩ :=
      candidateRows_inv (neighborsMain_subset_candidates hr)
    rw [heq]
    exact h1 ▸ h2
  · intro r hr
    obtain ⟨source, _, h1, neighbor, _, h2, _, _, _, _, _, heq⟩ :=
      candidateRows_inv (neighborsMvp_subset_candidates hr)
    rw [heq]
    exact h1 ▸ h2
  · intro geo vlat vlon s h
    exact (nearestOther_spec h).1

/-- Witness for C1 on the concrete fixture: the closest returned row names
facility F2, not the source F1, and the savior search at F1 picks F2. -/
theorem nn_excludes_source_and_sorted_witness :
    testRowF2.saviorId ≠ "F1" ∧ "F2" ≠ "F1" := by
  constructor
  · exact (nn_excludes_source_and_sorted testDist testFacs testInv ("F1") oxyName).1
      testRowF2 (by rw [neighborsMain_testEval]; simp)
  · exact (nn_excludes_source_and_sorted testDist testFacs testInv ("F1") oxyName).2.2.2.2
      testGeo 0 0 ("F2") nearestOther_testEval

/-! ### Claim C2 -/

/-- C2: when the external distance function is nonnegative, every row
returned by either variant has available stock strictly above the 100-unit
threshold and nonnegative distance. -/
theorem nn_stock_and_distance_invariant (dist : DistFn)
    (hd : ∀ a b c d, 0 ≤ dist a b c d) (facilities : List Facility)
    (inventory : List InvRecord) (victimId itemName : String) :
    (∀ r ∈ neighborsMain dist facilities inventory victimId itemName,
      100 < r.availableStock ∧ 0 ≤ r.distanceKm) ∧
    (∀ r ∈ neighborsMvp dist facilities inventory victimId itemName,
      100 < r.availableStock ∧ 0 ≤ r.distanceKm) := by
  constructor
  · intro r hr
    obtain ⟨source, _, _, neighbor, _, _, invr, _, _, _, hstock, heq⟩ :=
      candidateRows_inv (neighborsMain_subset_candidates hr)
    rw [heq]
    refine ⟨hstock, round1_nonneg ?_⟩
    have := hd source.lon source.lat neighbor.lon neighbor.lat
    linarith
  · intro r hr
    obtain ⟨source, _, _, neighbor, _, _, invr, _, _, _, hstock, heq⟩ :=
      candidateRows_inv (neighborsMvp_subset_candidates hr)
    rw [heq]
    refine ⟨hstock, round1_nonneg ?_⟩
    have := hd source.lon source.lat neighbor.lon neighbor.lat
    linarith

/-- Witness for C2 on the concrete fixture: the returned F2 row has stock
above 100 and nonnegative distance. -/
theorem nn_stock_and_distance_invariant_witness :
    100 < testRowF2.availableStock ∧ 0 ≤ testRowF2.distanceKm :=
  (nn_stock_and_distance_invariant testDist
    (by
      intro a b c d
      unfold testDist qabs
      have h1 : (0:ℚ) ≤ if c - a < 0 then -(c - a) else c - a := by
        split <;> linarith
      have h2 : (0:ℚ) ≤ if d - b < 0 then -(d - b) else d - b := by
        split <;> linarith
      nlinarith)
    testFacs testInv ("F1") oxyName).1
    testRowF2 (by rw [neighborsMain_testEval]; simp)

/-! ### Claim C4 -/

/-- Sorting then truncating to three rows keeps exactly the three smallest
rows, closest first. -/
lemma sortTake3_spec (L : List MatchRow) (h : 3 ≤ L.length) :
    ((List.insertionSort distLE L).take 3).length = 3 ∧
    List.Pairwise distLE ((List.insertionSort distLE L).take 3) ∧
    ∃ rest, (((List.insertionSort distLE L).take 3) ++ rest).Perm L ∧
      ∀ x ∈ (List.insertionSort distLE L).take 3, ∀ y ∈ rest, distLE x y := by
  have hperm : (List.insertionSort distLE L).Perm L := List.perm_insertionSort distLE L
  have hlen : (List.insertionSort distLE L).length = L.length := hperm.length_eq
  refine ⟨?_, ?_, (List.insertionSort distLE L).drop 3, ?_, ?_⟩
  · rw [List.length_take, hlen]
    exact Nat.min_eq_left h
  · exact List.Pairwise.sublist (List.take_sublist 3 _) (List.sorted_insertionSort distLE L)
  · rw [List.take_append_drop]
    exact hperm
  · have hpw : List.Pairwise distLE
        ((List.insertionSort distLE L).take 3 ++ (List.insertionSort distLE L).drop 3) := by
      rw [List.take_append_drop]
      exact List.sorted_insertionSort distLE L
    exact (List.pairwise_append.mp hpw).2.2

/-- C4: when at least three candidates survive the filters of a variant, that
variant returns exactly three rows, sorted by ascending distance, and those
rows together with some remainder permute the qualifying candidates with
every returned row at most as distant as every dropped one. -/
theorem nn_limit_three (dist : DistFn) (facilities : List Facility)
    (inventory : List InvRecord) (victimId itemName : String) :
    (3 ≤ ((candidateRows dist facilities inventory victimId itemName).filter
        (fun r => decide (r.distanceKm < 10))).length →
      (neighborsMain dist facilities inventory victimId itemName).length = 3 ∧
      List.Pairwise distLE (neighborsMain dist facilities inventory victimId itemName) ∧
      ∃ rest, ((neighborsMain dist facilities inventory victimId itemName) ++ rest).Perm
          ((candidateRows dist facilities inventory victimId itemName).filter
            (fun r => decide (r.distanceKm < 10))) ∧
        ∀ x ∈ neighborsMain dist facilities inventory victimId itemName,
          ∀ y ∈ rest, distLE x y) ∧
    (3 ≤ (candidateRows dist facilities inventory victimId itemName).length →
      (neighborsMvp dist facilities inventory victimId itemName).length = 3 ∧
      List.Pairwise distLE (neighborsMvp dist facilities inventory victimId itemName) ∧
      ∃ rest, ((neighborsMvp dist facilities inventory victimId itemName) ++ rest).Perm
          (candidateRows dist facilities inventory victimId itemName) ∧
        ∀ x ∈ neighborsMvp dist facilities inventory victimId itemName,
          ∀ y ∈ rest, distLE x y) := by
  constructor
  · intro h
    exact sortTake3_spec _ h
  · intro h
    exact sortTake3_spec _ h

/-- Evaluation of the distance filter on the fixture: all four candidates
lie within ten kilometers. -/
lemma candidateFilter_testEval :
    (candidateRows testDist testFacs testInv ("F1") oxyName).filter
      (fun r => decide (r.distanceKm < 10)) =
      [testRowF2, testRowF3, testRowF4, testRowF5] := by
  rw [candidateRows_testEval]
  norm_num [testRowF2, testRowF3, testRowF4, testRowF5]

/-- Witness for C4 on the concrete fixture: four candidates qualify and both
variants return exactly three rows. -/
theorem nn_limit_three_witness :
    (neighborsMain testDist testFacs testInv ("F1") oxyName).length = 3 ∧
    (neighborsMvp testDist testFacs testInv ("F1") oxyName).length = 3 :=
  ⟨((nn_limit_three testDist testFacs testInv ("F1") oxyName).1
      (by rw [candidateFilter_testEval]; norm_num)).1,
   ((nn_limit_three testDist testFacs testInv ("F1") oxyName).2
      (by rw [candidateRows_testEval]; norm_num)).1⟩

/-! ### Claim C5 -/

/-- C5: on any input whose qualifying candidates all lie strictly inside the
ten-kilometer cutoff, the Command Center variant and the MVP variant return
the same ranked sequence; the two embedded definitions differ only in that
filter. -/
theorem nn_variant_equivalence (dist : DistFn) (facilities : List Facility)
    (inventory : List InvRecord) (victimId itemName : String)
    (h : ∀ r ∈ candidateRows dist facilities inventory victimId itemName,
      r.distanceKm < 10) :
    neighborsMain dist facilities inventory victimId itemName =
      neighborsMvp dist facilities inventory victimId itemName := by
  unfold neighborsMain neighborsMvp
  rw [List.filter_eq_self.mpr]
  intro a ha
  exact decide_eq_true (h a ha)

/-- Witness for C5 on the concrete fixture, whose candidates lie at one to
four kilometers. -/
theorem nn_variant_equivalence_witness :
    neighborsMain testDist testFacs testInv ("F1") oxyName =
      neighborsMvp testDist testFacs testInv ("F1") oxyName :=
  nn_variant_equivalence testDist testFacs testInv ("F1") oxyName (by
    rw [candidateRows_testEval]
    intro r hr
    simp only [List.mem_cons, List.not_mem_nil, or_false] at hr
    rcases hr with rfl | rfl | rfl | rfl <;>
      norm_num [testRowF2, testRowF3, testRowF4, testRowF5])

/-! ### Claim C8 -/

/-- C8: when no candidate survives the filters, both variants return the
empty sequence as an ordinary value: the Command Center call returns ok with
an empty table, the MVP call returns an empty table with no error message,
and the console branch renders the no-supply message. -/
theorem nn_empty_result_valid (dist : DistFn) (facilities : List Facility)
    (inventory : List InvRecord) (victimId itemName : String) :
    ((candidateRows dist facilities inventory victimId itemName).filter
        (fun r => decide (r.distanceKm < 10)) = [] →
      neighborsMain dist facilities inventory victimId itemName = [] ∧
      find_nearest_neighbors_main dist (Except.ok (facilities, inventory)) victimId itemName =
        Except.ok [] ∧
      consoleRespond (neighborsMain dist facilities inventory victimId itemName) =
        ConsoleOutcome.noSupply) ∧
    (candidateRows dist facilities inventory victimId itemName = [] →
      neighborsMvp dist facilities inventory victimId itemName = [] ∧
      find_nearest_neighbors_mvp dist (Except.ok (facilities, inventory)) victimId itemName =
        ([], none) ∧
      consoleRespond (neighborsMvp dist facilities inventory victimId itemName) =
        ConsoleOutcome.noSupply) := by
  constructor
  · intro h
    have h1 : neighborsMain dist facilities inventory victimId itemName = [] := by
      unfold neighborsMain
      rw [h]
      rfl
    refine ⟨h1, ?_, ?_⟩
    · show Except.ok (neighborsMain dist facilities inventory victimId itemName) = Except.ok []
      rw [h1]
    · rw [h1]
      rfl
  · intro h
    have h1 : neighborsMvp dist facilities inventory victimId itemName = [] := by
      unfold neighborsMvp
      rw [h]
      rfl
    refine ⟨h1, ?_, ?_⟩
    · show (neighborsMvp dist facilities inventory victimId itemName, none) = ([], none)
      rw [h1]
    · rw [h1]
      rfl

/-- Evaluation on the fixture: no facility stocks this item, so no candidate
survives. -/
lemma candidateRows_emptyEval :
    candidateRows testDist testFacs testInv ("F1") ("Sterile Gloves") = [] := by
  norm_num +decide [candidateRows, testDist, testFacs, testInv, qabs, round1]

/-- Witness for C8 on the concrete fixture: an item nobody stocks yields an
empty ok result and the no-supply console message. -/
theorem nn_empty_result_valid_witness :
    find_nearest_neighbors_mvp testDist (Except.ok (testFacs, testInv)) ("F1")
      ("Sterile Gloves") = ([], none) ∧
    consoleRespond (neighborsMvp testDist testFacs testInv ("F1") ("Sterile Gloves")) =
      ConsoleOutcome.noSupply :=
  ⟨((nn_empty_result_valid testDist testFacs testInv ("F1") ("Sterile Gloves")).2
      candidateRows_emptyEval).2.1,
   ((nn_empty_result_valid testDist testFacs testInv ("F1") ("Sterile Gloves")).2
      candidateRows_emptyEval).2.2⟩

/-! ### Claim C9 -/

/-- Counterexample for C9 as stated: in the Command Center variant the
function body of find_nearest_neighbors has no exception handler, so an
exception raised by the external store propagates out of the function
unchanged instead of being caught at the call site. -/
theorem nn_error_uncaught_main :
    find_nearest_neighbors_main testDist (Except.error ("boom")) ("F1") oxyName =
      Except.error ("boom") := rfl

/-- C9 amended: the MVP variant catches the failure inside
find_nearest_neighbors and surfaces it as a user-facing error message with
an empty table, while the Command Center variant has no handler in
repository code and the exception propagates out of the function. -/
theorem nn_query_failure_handling (dist : DistFn) (e victimId itemName : String) :
    find_nearest_neighbors_mvp dist (Except.error e) victimId itemName =
      ([], some ("SQL Error: " ++ e)) ∧
    find_nearest_neighbors_main dist (Except.error e) victimId itemName =
      Except.error e := ⟨rfl, rfl⟩

/-- Witness for C9 amended at a concrete failing store. -/
theorem nn_query_failure_handling_witness :
    find_nearest_neighbors_mvp testDist (Except.error ("boom")) ("F1") oxyName =
      ([], some ("SQL Error: " ++ "boom")) ∧
    find_nearest_neighbors_main testDist (Except.error ("boom")) ("F1") oxyName =
      Except.error ("boom") :=
  nn_query_failure_handling testDist ("boom") ("F1") oxyName

/-! ### Claim C3 -/

/-- C3: every record the generator emits, under any random draws and any
distance function, closes with max(0, opening + received - issued) and is
never negative. -/
theorem closing_stock_formula (geo : GeoFn) (oracle : GenOracle)
    (facilities : List Facility) :
    ∀ rec ∈ generate_inventory geo oracle facilities,
      rec.closing = max 0 (rec.opening + rec.received - rec.issued) ∧ 0 ≤ rec.closing := by
  intro rec hrec
  unfold generate_inventory at hrec
  simp only [List.mem_flatMap, List.mem_map] at hrec
  obtain ⟨fac, hfac, item, hitem, heq⟩ := hrec
  subst heq
  exact ⟨rfl, le_max_left 0 _⟩

/-! ### Generator fixtures -/

/-- Four facilities on a meridian: the victims are A, B and C; under testGeo
the nearest other facility of A is B, of B is A, and of C is B, so every
savior is itself a victim. -/
def genFacs : List Facility :=
  [⟨"A", "Alpha", 0, 0⟩, ⟨"B", "Beta", 1, 0⟩, ⟨"C", "Gamma", 5, 0⟩, ⟨"D", "Delta", 20, 0⟩]

/-- Concrete random draws: every facility samples Oxytocin Injection and
Paracetamol, and the randint draws are fixed values inside their ranges. -/
def genOracle0 : GenOracle :=
  { sample := fun _ => [⟨"Oxytocin Injection", "Maternal", "High"⟩,
      ⟨"Paracetamol 500mg", "General", "Low"⟩],
    opening := fun _ _ => 150, received := fun _ _ => 10, issued := fun _ _ => 5,
    leadTime := fun _ _ => 3 }

/-- The crisis record of victim A in the fixture run. -/
def recAOxy : GenRecord := ⟨"A", "Oxytocin Injection", "Maternal", 10, 0, 10, 0, 3, "High"⟩

lemma victimIds_genEval : victimIds genFacs = ["A", "B", "C"] := rfl

lemma nearestOther_genEvalA : nearestOther testGeo genFacs ("A") 0 0 = some ("B") := by
  norm_num +decide [nearestOther, nearestStep, testGeo, genFacs, qabs]

lemma nearestOther_genEvalB : nearestOther testGeo genFacs ("B") 1 0 = some ("A") := by
  norm_num +decide [nearestOther, nearestStep, testGeo, genFacs, qabs]

lemma nearestOther_genEvalC : nearestOther testGeo genFacs ("C") 5 0 = some ("B") := by
  norm_num +decide [nearestOther, nearestStep, testGeo, genFacs, qabs]

lemma saviorIds_genEval : saviorIds testGeo genFacs = ["B", "A", "B"] := by
  unfold saviorIds
  rw [victimIds_genEval]
  simp only [List.filterMap_cons, List.filterMap_nil]
  have hfA : List.find? (fun r => r.fid == ("A")) genFacs =
      some (⟨"A", "Alpha", 0, 0⟩ : Facility) := by
    norm_num +decide [genFacs, List.find?]
  have hfB : List.find? (fun r => r.fid == ("B")) genFacs =
      some (⟨"B", "Beta", 1, 0⟩ : Facility) := by
    norm_num +decide [genFacs, List.find?]
  have hfC : List.find? (fun r => r.fid == ("C")) genFacs =
      some (⟨"C", "Gamma", 5, 0⟩ : Facility) := by
    norm_num +decide [genFacs, List.find?]
  rw [hfA, hfB, hfC]
  simp +decide [nearestOther_genEvalA, nearestOther_genEvalB, nearestOther_genEvalC]

/-- Full evaluation of the generator on the fixture. -/
lemma generate_genEval :
    generate_inventory testGeo genOracle0 genFacs =
      [recAOxy,
       ⟨"A", "Paracetamol 500mg", "General", 150, 10, 5, 155, 3, "Low"⟩,
       ⟨"B", "Oxytocin Injection", "Maternal", 10, 0, 10, 0, 3, "High"⟩,
       ⟨"B", "Paracetamol 500mg", "General", 150, 10, 5, 155, 3, "Low"⟩,
       ⟨"C", "Oxytocin Injection", "Maternal", 10, 0, 10, 0, 3, "High"⟩,
       ⟨"C", "Paracetamol 500mg", "General", 150, 10, 5, 155, 3, "Low"⟩,
       ⟨"D", "Oxytocin Injection", "Maternal", 150, 10, 5, 155, 3, "High"⟩,
       ⟨"D", "Paracetamol 500mg", "General", 150, 10, 5, 155, 3, "Low"⟩] := by
  rw [generate_inventory, saviorIds_genEval]
  norm_num +decide [victimIds, facilityItems, mkRecord, scenario, genOracle0, genFacs,
    oxyName, recAOxy, max_def]

/-- Witness for C3: the fixture's victim record satisfies the closing-stock
formula. -/
theorem closing_stock_formula_witness :
    recAOxy.closing = max 0 (recAOxy.opening + recAOxy.received - recAOxy.issued) ∧
    0 ≤ recAOxy.closing :=
  closing_stock_formula testGeo genOracle0 genFacs recAOxy
    (by rw [generate_genEval]; simp)

/-! ### Claim C7 -/

/-- Openings of the Oxytocin Injection records a run emits for one facility. -/
def oxyOpenings (l : List GenRecord) (fid : String) : List ℤ :=
  (l.filter (fun r => r.facilityId == fid && r.itemName == oxyName)).map GenRecord.opening

/-- Counterexample for C7 as stated: in the fixture run facility B is the
savior of victim A, yet its only Oxytocin Injection record has opening 10,
not the surplus opening 600, because B is itself a victim and the victim
branch of the generator takes precedence. -/
theorem crisis_placement_counterexample :
    ("B") ∈ saviorIds testGeo genFacs ∧
    oxyOpenings (generate_inventory testGeo genOracle0 genFacs) ("B") = [10] := by
  constructor
  · rw [saviorIds_genEval]
    simp
  · rw [generate_genEval]
    norm_num +decide [oxyOpenings, oxyName, recAOxy]

/-- C7 amended: victims always receive the depleted Oxytocin record
(opening 10, received 0, issued 10, closing 0); a savior that is not itself
a victim receives the surplus record (opening 600, received 0, issued 5,
closing 595); every victim or savior facility emits at least one Oxytocin
record; and all records of other item and facility combinations carry the
uniformly drawn figures inside the fixed ranges. -/
theorem crisis_placement (geo : GeoFn) (oracle : GenOracle) (facilities : List Facility)
    (hRange : ∀ f i, (100 ≤ oracle.opening f i ∧ oracle.opening f i ≤ 400) ∧
      (0 ≤ oracle.received f i ∧ oracle.received f i ≤ 30) ∧
      (5 ≤ oracle.issued f i ∧ oracle.issued f i ≤ 25)) :
    (∀ rec ∈ generate_inventory geo oracle facilities,
      (rec.itemName = oxyName → rec.facilityId ∈ victimIds facilities →
        rec.opening = 10 ∧ rec.received = 0 ∧ rec.issued = 10 ∧ rec.closing = 0) ∧
      (rec.itemName = oxyName → rec.facilityId ∉ victimIds facilities →
        rec.facilityId ∈ saviorIds geo facilities →
        rec.opening = 600 ∧ rec.received = 0 ∧ rec.issued = 5 ∧ rec.closing = 595) ∧
      (rec.itemName ≠ oxyName ∨
          (rec.facilityId ∉ victimIds facilities ∧
           rec.facilityId ∉ saviorIds geo facilities) →
        rec.opening = oracle.opening rec.facilityId rec.itemName ∧
        rec.received = oracle.received rec.facilityId rec.itemName ∧
        rec.issued = oracle.issued rec.facilityId rec.itemName ∧
        100 ≤ rec.opening ∧ rec.opening ≤ 400 ∧ 0 ≤ rec.received ∧ rec.received ≤ 30 ∧
        5 ≤ rec.issued ∧ rec.issued ≤ 25)) ∧
    (∀ fac ∈ facilities,
      fac.fid ∈ victimIds facilities ∨ fac.fid ∈ saviorIds geo facilities →
      ∃ rec ∈ generate_inventory geo oracle facilities,
        rec.facilityId = fac.fid ∧ rec.itemName = oxyName) := by
  constructor
  · intro rec hrec
    unfold generate_inventory at hrec
    simp only [List.mem_flatMap, List.mem_map] at hrec
    obtain ⟨fac, hfac, item, hitem, heq⟩ := hrec
    subst heq
    refine ⟨?_, ?_, ?_⟩
    · intro h1 h2
      replace h1 : item.name = oxyName := h1
      replace h2 : fac.fid ∈ victimIds facilities := h2
      have hs : scenario oracle (victimIds facilities) (saviorIds geo facilities)
          fac.fid item = (10, 0, 10) := by
        unfold scenario
        rw [if_pos h1, if_pos h2]
      show (scenario _ _ _ _ _).1 = 10 ∧ (scenario _ _ _ _ _).2.1 = 0 ∧
        (scenario _ _ _ _ _).2.2 = 10 ∧
        max 0 ((scenario _ _ _ _ _).1 + (scenario _ _ _ _ _).2.1 -
          (scenario _ _ _ _ _).2.2) = 0
      rw [hs]
      norm_num
    · intro h1 h2 h3
      replace h1 : item.name = oxyName := h1
      replace h2 : fac.fid ∉ victimIds facilities := h2
      replace h3 : fac.fid ∈ saviorIds geo facilities := h3
      have hs : scenario oracle (victimIds facilities) (saviorIds geo facilities)
          fac.fid item = (600, 0, 5) := by
        unfold scenario
        rw [if_pos h1, if_neg h2, if_pos h3]
      show (scenario _ _ _ _ _).1 = 600 ∧ (scenario _ _ _ _ _).2.1 = 0 ∧
        (scenario _ _ _ _ _).2.2 = 5 ∧
        max 0 ((scenario _ _ _ _ _).1 + (scenario _ _ _ _ _).2.1 -
          (scenario _ _ _ _ _).2.2) = 595
      rw [hs]
      norm_num
    · intro h
      replace h : item.name ≠ oxyName ∨
          (fac.fid ∉ victimIds facilities ∧ fac.fid ∉ saviorIds geo facilities) := h
      have hs : scenario oracle (victimIds facilities) (saviorIds geo facilities)
          fac.fid item =
          (oracle.opening fac.fid item.name, oracle.received fac.fid item.name,
           oracle.issued fac.fid item.name) := by
        unfold scenario
        rcases h with h1 | ⟨h2, h3⟩
        · rw [if_neg h1]
        · by_cases h1 : item.name = oxyName
          · rw [if_pos h1, if_neg h2, if_neg h3]
          · rw [if_neg h1]
      refine ⟨?_, ?_, ?_, ?_⟩
      · show (scenario _ _ _ _ _).1 = _
        rw [hs]
        rfl
      · show (scenario _ _ _ _ _).2.1 = _
        rw [hs]
        rfl
      · show (scenario _ _ _ _ _).2.2 = _
        rw [hs]
        rfl
      · show 100 ≤ (scenario _ _ _ _ _).1 ∧ (scenario _ _ _ _ _).1 ≤ 400 ∧
          0 ≤ (scenario _ _ _ _ _).2.1 ∧ (scenario _ _ _ _ _).2.1 ≤ 30 ∧
          5 ≤ (scenario _ _ _ _ _).2.2 ∧ (scenario _ _ _ _ _).2.2 ≤ 25
        rw [hs]
        have h4 := hRange fac.fid item.name
        exact ⟨h4.1.1, h4.1.2, h4.2.1.1, h4.2.1.2, h4.2.2.1, h4.2.2.2⟩
  · intro fac hfac hspec
    have hex : ∃ item ∈ facilityItems oracle (victimIds facilities)
        (saviorIds geo facilities) fac.fid, item.name = oxyName := by
      unfold facilityItems
      by_cases hmem : oxyName ∈ (oracle.sample fac.fid).map Item.name
      · obtain ⟨item, hit, hname⟩ := List.mem_map.mp hmem
        have hcond : ¬((fac.fid ∈ victimIds facilities ∨ fac.fid ∈ saviorIds geo facilities) ∧
            oxyName ∉ (oracle.sample fac.fid).map Item.name) := fun hc => hc.2 hmem
        rw [if_neg hcond]
        exact ⟨item, hit, hname⟩
      · rw [if_pos ⟨hspec, hmem⟩]
        exact ⟨MASTER_ITEMS.headI, List.mem_append_right _ (List.mem_singleton_self _), rfl⟩
    obtain ⟨item, hitem, hname⟩ := hex
    refine ⟨mkRecord oracle (victimIds facilities) (saviorIds geo facilities) fac.fid item,
      ?_, rfl, hname⟩
    unfold generate_inventory
    simp only [List.mem_flatMap, List.mem_map]
    exact ⟨fac, hfac, item, hitem, rfl⟩

/-- Witness for the amended C7: in the fixture run victim A's record carries
the depleted figures, and victim B (also a savior) emits an Oxytocin record. -/
theorem crisis_placement_witness :
    recAOxy.opening = 10 ∧ recAOxy.received = 0 ∧ recAOxy.issued = 10 ∧
    recAOxy.closing = 0 := by
  have h := (crisis_placement testGeo genOracle0 genFacs
    (by intro f i; refine ⟨⟨?_, ?_⟩, ⟨?_, ?_⟩, ?_, ?_⟩ <;> norm_num [genOracle0])).1
    recAOxy (by rw [generate_genEval]; simp)
  exact h.1 rfl (by rw [victimIds_genEval]; simp [recAOxy])

/-! ### Claim C6 -/

/-- C6: item-name resolution is case-insensitive (the result depends only on
the lowercased query), any returned item is a known item that matches and
has maximal length among all matching items, and the clashing-prefix example
resolves to the longer name. -/
theorem chat_resolution_longest :
    (∀ q q' items, lowerStr q = lowerStr q' →
      run_chat_action q items = run_chat_action q' items) ∧
    (∀ q items it, run_chat_action q items = some it →
      it ∈ items ∧ itemHit (lowerL q.data) it = true ∧
      ∀ it' ∈ items, itemHit (lowerL q.data) it' = true → it'.length ≤ it.length) ∧
    run_chat_action ("need amoxicillin 500mg urgently")
      [("Amoxicillin"), ("Amoxicillin 500mg"), ("Oxytocin Injection")] =
      some ("Amoxicillin 500mg") := by
  refine ⟨?_, ?_, by decide⟩
  · intro q q' items h
    have h2 : lowerL q.data = lowerL q'.data := congrArg String.data h
    unfold run_chat_action
    rw [h2]
  · intro q items it h
    unfold run_chat_action at h
    rw [List.find?_eq_some] at h
    obtain ⟨hit, as, bs, hsplit, hfail⟩ := h
    refine ⟨?_, hit, ?_⟩
    · have hmem : it ∈ List.insertionSort lenGE items := by
        rw [hsplit]
        simp
      exact (List.perm_insertionSort lenGE items).subset hmem
    · intro it' hit' hhit'
      have hsorted : List.Pairwise lenGE (List.insertionSort lenGE items) :=
        List.sorted_insertionSort lenGE items
      have hmem' : it' ∈ List.insertionSort lenGE items :=
        (List.perm_insertionSort lenGE items).mem_iff.mpr hit'
      rw [hsplit] at hmem' hsorted
      rcases List.mem_append.mp hmem' with hin | hin
      · have hf := hfail it' hin
        exact absurd hf (by simp [hhit'])
      · rcases List.mem_cons.mp hin with heq | hin
        · subst heq
          exact le_refl _
        · have hp := (List.pairwise_append.mp hsorted).2.1
          exact (List.pairwise_cons.mp hp).1 it' hin

/-- Witness for C6: resolution of the uppercased query agrees with the
lowercase one on a concrete item list. -/
theorem chat_resolution_longest_witness :
    run_chat_action ("NEED Amoxicillin 500MG urgently")
      [("Amoxicillin"), ("Amoxicillin 500mg")] =
    run_chat_action ("need amoxicillin 500mg urgently")
      [("Amoxicillin"), ("Amoxicillin 500mg")] :=
  chat_resolution_longest.1 ("NEED Amoxicillin 500MG urgently")
    ("need amoxicillin 500mg urgently") [("Amoxicillin"), ("Amoxicillin 500mg")]
    (by decide)

/-! ### Claim C10 -/

/-- The resolver returns none exactly when no known item matches the lowered
query by full name or first word. -/
lemma run_chat_eq_none_iff (q : String) (items : List String) :
    run_chat_action q items = none ↔
      ∀ it ∈ items, itemHit (lowerL q.data) it = false := by
  unfold run_chat_action
  rw [List.find?_eq_none]
  constructor
  · intro h it hit
    have := h it ((List.perm_insertionSort lenGE items).mem_iff.mpr hit)
    simpa using this
  · intro h x hx
    have := h x ((List.perm_insertionSort lenGE items).mem_iff.mp hx)
    simp [this]

/-- C10: the resolver also matches on the first word of a known item name;
it returns none exactly when neither any full item name nor any item's first
word occurs in the lowercased input, so an input containing some item's
first word always resolves, as the bare metformin input shows. -/
theorem chat_first_word_matching :
    (∀ q items, run_chat_action q items = none ↔
      ∀ it ∈ items, itemHit (lowerL q.data) it = false) ∧
    (∀ q items it, it ∈ items →
      containsSubL (lowerL (firstWordL it.data)) (lowerL q.data) = true →
      (run_chat_action q items).isSome = true) ∧
    run_chat_action ("metformin") [("Metformin 500mg"), ("Amoxicillin 500mg")] =
      some ("Metformin 500mg") := by
  refine ⟨fun q items => run_chat_eq_none_iff q items, ?_, by decide⟩
  intro q items it hit hword
  by_contra hns
  have hnone : run_chat_action q items = none := Option.not_isSome_iff_eq_none.mp hns
  have hall := (run_chat_eq_none_iff q items).mp hnone it hit
  have htrue : itemHit (lowerL q.data) it = true := by
    unfold itemHit
    rw [hword]
    simp
  rw [htrue] at hall
  exact absurd hall (by decide)

/-- Witness for C10: the bare metformin input resolves to a known item. -/
theorem chat_first_word_matching_witness :
    (run_chat_action ("metformin") [("Metformin 500mg"), ("Amoxicillin 500mg")]).isSome =
      true :=
  chat_first_word_matching.2.1 ("metformin")
    [("Metformin 500mg"), ("Amoxicillin 500mg")] ("Metformin 500mg")
    (by simp) (by decide)

end SwiftStock
